import Mathlib

/-!
Verification of the motorcycle-booking OSM pipeline.

Shallow embedding of the three Python sources:
- convert_osm_to_json.py : record normalizer (parse_csv_row), country index
  (build_countries_dict) and the row-processing loop of convert_csv_to_json;
- osm_mc_repair_extractor.py : the tag classifier
  MotorcycleRepairShopHandler._is_motorcycle_repair_shop;
- migrate_to_supabase.py : transform_shop and the validity filter of
  SupabaseMigrator.migrate_shops.

Python strings are Lean String values; CSV rows are structures whose fields
default to "" (a key missing from the row dict and a key mapped to "" are
indistinguishable for every access the code performs, since each access is
either row.get(k, '') or a truthiness test, and row[k] only occurs guarded
by a truthiness test on row.get(k)).  Python floats are modelled as rational
numbers.  Core String functions such as String.trim and String.splitOn are
re-implemented structurally on the underlying character list (py_strip,
py_split, ...) so that every definition evaluates by kernel reduction.
-/

/-- Sum the decimal digits of a character list into a natural number
(helper for the model of the Python float() built-in). -/
def digitsToNat (ds : List Char) : Nat :=
  ds.foldl (fun acc c => acc * 10 + (c.toNat - 48)) 0

/-- Model of Python str.strip(): remove leading and trailing whitespace
from a character list. -/
def py_strip_chars (cs : List Char) : List Char :=
  ((cs.dropWhile Char.isWhitespace).reverse.dropWhile Char.isWhitespace).reverse

/-- Model of Python str.strip() on strings. -/
def py_strip (s : String) : String :=
  ⟨py_strip_chars s.data⟩

/-- Model of Python str.lower() (ASCII case folding, which covers every
string the code compares after lowering). -/
def py_lower (s : String) : String :=
  ⟨s.data.map Char.toLower⟩

/-- Model of Python str.upper() (ASCII case folding; country codes are
ASCII). -/
def py_upper (s : String) : String :=
  ⟨s.data.map Char.toUpper⟩

/-- Model of the Python built-in float() applied to a string, restricted to
optional sign followed by decimal digits with an optional fraction part;
exponents, underscores, infinities and NaN are outside the model.  Returns
none exactly where float() raises ValueError on the modelled forms. -/
def py_float (s : String) : Option ℚ :=
  let t := py_strip_chars s.data
  let (neg, cs) :=
    match t with
    | '-' :: rest => (true, rest)
    | '+' :: rest => (false, rest)
    | rest => (false, rest)
  let ip := cs.takeWhile (fun c => c != '.')
  let r := cs.dropWhile (fun c => c != '.')
  let fp := r.drop 1
  if (ip ++ fp).all Char.isDigit && decide (0 < ip.length + fp.length) then
    let mag : ℚ := mkRat (digitsToNat (ip ++ fp)) (10 ^ fp.length)
    some (if neg then Rat.neg mag else mag)
  else none

/-- Model of Python truthiness bool(x) for an optional float: None and 0.0
are falsy, every other value is truthy. -/
def py_truthy_float : Option ℚ → Bool
  | none => false
  | some v => v != 0

/-- Worker for py_split: fuel-indexed scan matching Python str.split(sep)
for a non-empty separator. -/
def py_split_go : Nat → List Char → List Char → List Char → List (List Char)
  | 0, _, cs, acc => [acc.reverse ++ cs]
  | _ + 1, _, [], acc => [acc.reverse]
  | fuel + 1, sep, c :: rest, acc =>
    if sep.isPrefixOf (c :: rest) then
      acc.reverse :: py_split_go fuel sep ((c :: rest).drop sep.length) []
    else
      py_split_go fuel sep rest (c :: acc)

/-- Model of Python str.split(sep) for a non-empty separator: greedy
left-to-right split on every occurrence of sep. -/
def py_split (s sep : String) : List String :=
  (py_split_go (s.data.length + 1) sep.data s.data []).map fun cs => (⟨cs⟩ : String)

/-- Model of Python's substring test (sub in s) for a non-empty sub:
sub occurs in s iff splitting on it yields more than one part. -/
def py_contains (s sub : String) : Bool :=
  (py_split s sub).length != 1

/-- Lexicographic comparison on character lists by code point, the order
Python uses to sort strings.  Returns true iff the first list is less than
or equal to the second. -/
def pyStrLeB : List Char → List Char → Bool
  | [], _ => true
  | _ :: _, [] => false
  | a :: as, b :: bs =>
    if a.toNat < b.toNat then true
    else if b.toNat < a.toNat then false
    else pyStrLeB as bs

/-- The order relation Python's sorted() uses on strings: lexicographic by
code point. -/
def pyLe (s t : String) : Prop :=
  pyStrLeB s.data t.data = true

instance : DecidableRel pyLe :=
  fun s t => inferInstanceAs (Decidable (pyStrLeB s.data t.data = true))

/-- A row of motorcycle_repair_shops.csv as read by csv.DictReader.  A key
absent from the dict behaves exactly like a key mapped to "", so every
field is a plain string defaulting to "". -/
structure Row where
  osm_id : String := ""
  osm_type : String := ""
  latitude : String := ""
  longitude : String := ""
  name : String := ""
  shop_type : String := ""
  amenity : String := ""
  craft : String := ""
  brand : String := ""
  operator : String := ""
  address_street : String := ""
  address_housenumber : String := ""
  address_city : String := ""
  address_postcode : String := ""
  address_country : String := ""
  phone : String := ""
  mobile : String := ""
  email : String := ""
  website : String := ""
  opening_hours : String := ""
  service_motorcycle : String := ""
  service_repair : String := ""
  source_country : String := ""
deriving DecidableEq, Repr

/-- The website JSON shop object produced by parse_csv_row
(convert_osm_to_json.py lines 108-120). -/
structure Shop where
  name : String := ""
  address : String := ""
  city : String := ""
  phone : String := ""
  website : String := ""
  rating : String := ""
  reviews_count : String := ""
  hours : String := ""
  latitude : Option ℚ := none
  longitude : Option ℚ := none
  business_type : String := ""
deriving DecidableEq, Repr

/-- Model of Python str.join(sep, parts). -/
def py_join (sep : String) : List String → String
  | [] => ""
  | [s] => s
  | s :: rest => s ++ sep ++ py_join sep rest

/-- determine_business_type (convert_osm_to_json.py lines 125-138). -/
def determine_business_type (row : Row) : String :=
  let shop_type := row.shop_type
  let amenity := row.amenity
  let craft := row.craft
  if shop_type == "motorcycle_repair" || amenity == "motorcycle_repair" ||
      craft == "motorcycle_repair" then
    "Motorcycle Repair Shop"
  else if shop_type == "motorcycle" then
    "Motorcycle Dealership"
  else if py_contains (py_lower shop_type) "repair" ||
      py_contains (py_lower amenity) "repair" then
    "Repair Service"
  else
    "Motorcycle Shop"

/-- The country_map dict of get_country_name (convert_osm_to_json.py
lines 143-171), in source order. -/
def country_map : List (String × String) :=
  [("AT", "Austria"), ("BE", "Belgium"), ("BG", "Bulgaria"), ("HR", "Croatia"),
   ("CY", "Cyprus"), ("CZ", "Czech Republic"), ("DK", "Denmark"),
   ("EE", "Estonia"), ("FI", "Finland"), ("FR", "France"), ("DE", "Germany"),
   ("GR", "Greece"), ("HU", "Hungary"), ("IE", "Ireland"), ("IT", "Italy"),
   ("LV", "Latvia"), ("LT", "Lithuania"), ("LU", "Luxembourg"), ("MT", "Malta"),
   ("NL", "Netherlands"), ("PL", "Poland"), ("PT", "Portugal"),
   ("RO", "Romania"), ("SK", "Slovakia"), ("SI", "Slovenia"), ("ES", "Spain"),
   ("SE", "Sweden")]

/-- get_country_name (convert_osm_to_json.py lines 141-172):
country_map.get(country_code.upper(), country_code). -/
def get_country_name (country_code : String) : String :=
  (List.lookup (py_upper country_code) country_map).getD country_code

/-- The address computation of parse_csv_row (lines 56-65). -/
def shop_address (row : Row) : String :=
  let address_parts : List String :=
    if row.address_street != "" then
      if row.address_housenumber != "" then
        [row.address_street ++ " " ++ row.address_housenumber]
      else
        [row.address_street]
    else []
  if address_parts != [] then py_join ", " (address_parts.filter (· != ""))
  else "Address not available"

/-- The city-string computation of parse_csv_row (lines 67-88): country
resolution (explicit tag through get_country_name, else the source_country
hint, else empty) followed by composition of the display string. -/
def shop_city (row : Row) : String :=
  let city_name := py_strip row.address_city
  let country_code := py_strip row.address_country
  let source_country := py_strip row.source_country
  let country_name :=
    if country_code != "" then get_country_name country_code
    else if source_country != "" then source_country
    else ""
  if city_name != "" && country_name != "" then city_name ++ ", " ++ country_name
  else if country_name != "" then "Unknown City, " ++ country_name
  else if city_name != "" then city_name ++ ", Unknown Country"
  else "Unknown City, Unknown Country"

/-- The name fallback chain of parse_csv_row (line 105):
row.get('name') or row.get('operator') or row.get('brand') or 'Unnamed Shop'. -/
def shop_name_value (row : Row) : String :=
  if row.name != "" then row.name
  else if row.operator != "" then row.operator
  else if row.brand != "" then row.brand
  else "Unnamed Shop"

/-- The phone fallback chain of parse_csv_row (line 91). -/
def shop_phone (row : Row) : String :=
  if row.phone != "" then row.phone
  else if row.mobile != "" then row.mobile
  else "N/A"

/-- The website fallback of parse_csv_row (line 92). -/
def shop_website (row : Row) : String :=
  if row.website != "" then row.website else "N/A"

/-- The opening-hours fallback of parse_csv_row (line 95). -/
def shop_hours (row : Row) : String :=
  if row.opening_hours != "" then row.opening_hours
  else "Hours not available"

/-- One coordinate of parse_csv_row (lines 98-99):
float(row[k]) if row.get(k) else None.  float() raising ValueError is
modelled as Except.error. -/
def parse_coord (s : String) : Except String (Option ℚ) :=
  if s != "" then
    match py_float s with
    | some v => Except.ok (some v)
    | none => Except.error ("could not convert string to float: " ++ s)
  else
    Except.ok none

/-- parse_csv_row (convert_osm_to_json.py lines 29-122).  The latitude is
converted before the longitude, so a ValueError on the latitude surfaces
first; any ValueError propagates out of the function. -/
def parse_csv_row (row : Row) : Except String Shop :=
  match parse_coord row.latitude with
  | Except.error e => Except.error e
  | Except.ok lat =>
    match parse_coord row.longitude with
    | Except.error e => Except.error e
    | Except.ok lon =>
      Except.ok
        { name := py_strip (shop_name_value row)
          address := shop_address row
          city := shop_city row
          phone := shop_phone row
          website := shop_website row
          rating := "N/A"
          reviews_count := "0"
          hours := shop_hours row
          latitude := lat
          longitude := lon
          business_type := determine_business_type row }

/-- The row-processing loop of convert_csv_to_json (convert_osm_to_json.py
lines 235-256): each row is parsed; a raised error, a sentinel/empty name
under skip_unnamed, or a falsy coordinate increments the skip counter,
otherwise the shop is appended.  Returns (accepted shops in order,
skipped count).  File I/O and progress printing are outside the model. -/
def convert_csv_to_json : List Row → Bool → List Shop × Nat
  | [], _ => ([], 0)
  | row :: rows, skip_unnamed =>
    let rest := convert_csv_to_json rows skip_unnamed
    match parse_csv_row row with
    | Except.error _ => (rest.1, rest.2 + 1)
    | Except.ok shop =>
      if skip_unnamed && (shop.name == "Unnamed Shop" || shop.name == "") then
        (rest.1, rest.2 + 1)
      else if !py_truthy_float shop.latitude || !py_truthy_float shop.longitude then
        (rest.1, rest.2 + 1)
      else
        (shop :: rest.1, rest.2)

/-- The split performed on a composed city string (convert_osm_to_json.py
lines 184-187 and migrate_to_supabase.py lines 79-82): when ', ' occurs,
parts[0].strip() and parts[-1].strip(); otherwise nothing. -/
def split_city_field (s : String) : Option (String × String) :=
  match py_split s ", " with
  | [] => none
  | [_] => none
  | p :: q :: rest => some (py_strip p, py_strip (List.getLastD rest q))

/-- The insertion countries[country].add(city) that build_countries_dict
performs for one shop (lines 183-189), as an optional (country, city)
pair: none when the city string lacks ', ' or either stripped half is
empty. -/
def shop_city_pair (shop : Shop) : Option (String × String) :=
  match split_city_field shop.city with
  | some (city, country) =>
    if city != "" && country != "" then some (country, city) else none
  | none => none

/-- build_countries_dict (convert_osm_to_json.py lines 175-192).  The
defaultdict(set) of cities keyed by country is modelled by the list of
(country, city) insertion pairs; Python set semantics become List.dedup and
Python sorted() becomes insertionSort by pyLe, so the result is the
association list of the returned dict in its (sorted) iteration order. -/
def build_countries_dict (shops : List Shop) : List (String × List String) :=
  let pairs := shops.filterMap shop_city_pair
  let countries := List.insertionSort pyLe (pairs.map Prod.fst).dedup
  countries.map fun country =>
    (country,
      List.insertionSort pyLe
        ((pairs.filter fun p => p.1 == country).map Prod.snd).dedup)

/-- An OSM tag mapping restricted to the keys the classifier reads
(osm_mc_repair_extractor.py lines 69-98).  tags.get(k) with no default is
None for an absent key, hence Option String. -/
structure Tags where
  shop : Option String := none
  amenity : Option String := none
  craft : Option String := none
  service_vehicle_motorcycle : Option String := none
  service_vehicle_repair : Option String := none
  repair : Option String := none
deriving DecidableEq, Repr

/-- MotorcycleRepairShopHandler._is_motorcycle_repair_shop
(osm_mc_repair_extractor.py lines 69-98), with the source's clause order. -/
def is_motorcycle_repair_shop (tags : Tags) : Bool :=
  if tags.shop == some "motorcycle_repair" || tags.shop == some "motorcycle" then
    true
  else if tags.amenity == some "motorcycle_repair" then
    true
  else if tags.service_vehicle_motorcycle == some "yes" &&
      (tags.service_vehicle_repair == some "yes" || tags.repair == some "yes" ||
        py_contains (tags.craft.getD "") "repair") then
    true
  else if tags.craft == some "motorcycle_repair" then
    true
  else
    false

/-- The Supabase-schema payload built by SupabaseMigrator.transform_shop
(migrate_to_supabase.py lines 115-126). -/
structure TransformedShop where
  name : String := ""
  business_type : String := ""
  latitude : Option ℚ := none
  longitude : Option ℚ := none
  address_street : Option String := none
  address_city : Option String := none
  address_country : Option String := none
  phone : Option String := none
  website : Option String := none
  opening_hours : Option String := none
deriving DecidableEq, Repr

/-- SupabaseMigrator.transform_shop (migrate_to_supabase.py lines 73-130).
On a well-typed shop object every operation is total, so the try/except
never fires and the function always returns the payload. -/
def transform_shop (shop : Shop) : TransformedShop :=
  let cityPair :=
    match split_city_field shop.city with
    | some (c, k) => (some c, some k)
    | none => ((none : Option String), (none : Option String))
  let city_name :=
    if cityPair.1 == some "Unknown City" then none else cityPair.1
  let country_name :=
    if cityPair.2 == some "Unknown Country" then none else cityPair.2
  let street :=
    if shop.address != "" && shop.address != "Address not available" then
      some (List.headD (py_split shop.address ", ") shop.address)
    else none
  let phone := if shop.phone == "N/A" then none else some shop.phone
  let website := if shop.website == "N/A" then none else some shop.website
  let hours := if shop.hours == "Hours not available" then none else some shop.hours
  { name := shop.name
    business_type := shop.business_type
    latitude := if py_truthy_float shop.latitude then shop.latitude else none
    longitude := if py_truthy_float shop.longitude then shop.longitude else none
    address_street := street
    address_city := city_name
    address_country := country_name
    phone := phone
    website := website
    opening_hours := hours }

/-- The validity test on line 213 of migrate_to_supabase.py:
transformed['latitude'] and transformed['longitude'] under Python
truthiness (the leading check of transformed itself is always true in the
typed model). -/
def migrate_shop_valid (t : TransformedShop) : Bool :=
  py_truthy_float t.latitude && py_truthy_float t.longitude

/-- The transform-and-filter stage of SupabaseMigrator.migrate_shops
(migrate_to_supabase.py lines 210-216): valid payloads kept in order,
invalid ones counted in stats.shops_failed. -/
def migrate_shops : List Shop → List TransformedShop × Nat
  | [] => ([], 0)
  | shop :: rest' =>
    let rest := migrate_shops rest'
    let t := transform_shop shop
    if migrate_shop_valid t then (t :: rest.1, rest.2)
    else (rest.1, rest.2 + 1)

/-- Spec-side classifier predicate, written from the decision rule of
spec section 4.1 as restated in claim C2. -/
def is_repair_shop_spec (tags : Tags) : Prop :=
  tags.shop = some "motorcycle_repair" ∨ tags.shop = some "motorcycle" ∨
  tags.amenity = some "motorcycle_repair" ∨ tags.craft = some "motorcycle_repair" ∨
  (tags.service_vehicle_motorcycle = some "yes" ∧
    (tags.service_vehicle_repair = some "yes" ∨ tags.repair = some "yes" ∨
      py_contains (tags.craft.getD "") "repair" = true))

/-- Spec-side country resolution, written from the precedence of spec
section 4.2: explicit country tag through the code table, else the
source_country hint, else empty. -/
def spec_resolved_country (row : Row) : String :=
  if py_strip row.address_country != "" then
    get_country_name (py_strip row.address_country)
  else if py_strip row.source_country != "" then
    py_strip row.source_country
  else ""

/-- Spec-side city composition, written from the composition precedence of
spec section 4.2. -/
def spec_city (row : Row) : String :=
  let city := py_strip row.address_city
  let country := spec_resolved_country row
  if city != "" && country != "" then city ++ ", " ++ country
  else if country != "" then "Unknown City, " ++ country
  else if city != "" then city ++ ", Unknown Country"
  else "Unknown City, Unknown Country"

/-- Spec-side name fallback chain, written from spec section 3: explicit
name, else operator, else brand, else the sentinel. -/
def spec_name (row : Row) : String :=
  if row.name != "" then row.name
  else if row.operator != "" then row.operator
  else if row.brand != "" then row.brand
  else "Unnamed Shop"

instance : IsTotal String pyLe where
  total s t := by
    have h : ∀ as bs, pyStrLeB as bs = true ∨ pyStrLeB bs as = true := by
      intro as
      induction as with
      | nil => intro bs; left; rfl
      | cons a as ih =>
        intro bs
        cases bs with
        | nil => right; rfl
        | cons b bs =>
          simp only [pyStrLeB]
          rcases Nat.lt_trichotomy a.toNat b.toNat with hlt | heq | hgt
          · left; simp [hlt]
          · rcases ih bs with h2 | h2 <;> [left; right] <;>
              simp [heq, h2, Nat.lt_irrefl]
          · right; simp [hgt, Nat.lt_asymm hgt]
    exact h s.data t.data

instance : IsTrans String pyLe where
  trans s t u hst htu := by
    have h : ∀ as bs cs, pyStrLeB as bs = true → pyStrLeB bs cs = true →
        pyStrLeB as cs = true := by
      intro as
      induction as with
      | nil => intro bs cs _ _; rfl
      | cons a as ih =>
        intro bs cs hab hbc
        cases bs with
        | nil => simp [pyStrLeB] at hab
        | cons b bs =>
          cases cs with
          | nil => simp [pyStrLeB] at hbc
          | cons c cs =>
            simp only [pyStrLeB] at hab hbc ⊢
            by_cases h1 : a.toNat < b.toNat <;> by_cases h2 : b.toNat < c.toNat <;>
              by_cases h3 : a.toNat < c.toNat <;> simp_all
            all_goals try omega
            exact Or.inr ⟨by omega, ih bs cs hab.2 hbc.2⟩
    exact h s.data t.data u.data hst htu

instance : IsAntisymm String pyLe where
  antisymm s t hst hts := by
    have hinj : ∀ a b : Char, a.toNat = b.toNat → a = b := fun a b hab =>
      Char.eq_of_val_eq (by unfold Char.toNat at hab; exact UInt32.toNat.inj hab)
    have h : ∀ as bs, pyStrLeB as bs = true → pyStrLeB bs as = true → as = bs := by
      intro as
      induction as with
      | nil =>
        intro bs hab hba
        cases bs with
        | nil => rfl
        | cons b bs => simp [pyStrLeB] at hba
      | cons a as ih =>
        intro bs hab hba
        cases bs with
        | nil => simp [pyStrLeB] at hab
        | cons b bs =>
          simp only [pyStrLeB] at hab hba
          by_cases h1 : a.toNat < b.toNat <;> by_cases h2 : b.toNat < a.toNat <;>
            simp_all
          · omega
          · have hc : a = b := hinj a b (by omega)
            subst hc
            exact ⟨rfl, ih bs hab hba⟩
    cases s; cases t
    exact congrArg String.mk (h _ _ hst hts)

def rowBadLat : Row :=
  { name := "Bike Fix", latitude := "not-a-number", longitude := "2.0" }

def rowGood : Row :=
  { name := "Moto Fix", latitude := "52.52", longitude := "13.405",
    address_city := "Berlin", address_country := "DE" }

def rowLatOnly : Row :=
  { name := "Shop A", latitude := "1.5" }

def shopLatOnly : Shop :=
  { name := "Shop A", address := "Address not available",
    city := "Unknown City, Unknown Country", phone := "N/A", website := "N/A",
    rating := "N/A", reviews_count := "0", hours := "Hours not available",
    latitude := some (mkRat 3 2), longitude := none,
    business_type := "Motorcycle Shop" }

def rowBlankName : Row :=
  { name := " " }

def rowUnnamedGood : Row :=
  { latitude := "1.5", longitude := "2.5" }

def shopUnnamedGood : Shop :=
  { name := "Unnamed Shop", address := "Address not available",
    city := "Unknown City, Unknown Country", phone := "N/A", website := "N/A",
    rating := "N/A", reviews_count := "0", hours := "Hours not available",
    latitude := some (mkRat 3 2), longitude := some (mkRat 5 2),
    business_type := "Motorcycle Shop" }

def rowBerlinDe : Row :=
  { name := "Moto", address_city := "Berlin", address_country := "de",
    latitude := "1.0", longitude := "2.0" }

def shopBerlinDe : Shop :=
  { name := "Moto", address := "Address not available", city := "Berlin, Germany",
    phone := "N/A", website := "N/A", rating := "N/A", reviews_count := "0",
    hours := "Hours not available", latitude := some 1, longitude := some 2,
    business_type := "Motorcycle Shop" }

def shopUnknownCityFrance : Shop :=
  { city := "Unknown City, France" }

def shopBerlinG : Shop :=
  { city := "Berlin, Germany" }

def shopMunichG : Shop :=
  { city := "Munich, Germany" }

def rowZeroLat : Row :=
  { name := "Zero", latitude := "0.0", longitude := "1.5" }

def shopZeroLat : Shop :=
  { name := "Zero", address := "Address not available",
    city := "Unknown City, Unknown Country", phone := "N/A", website := "N/A",
    rating := "N/A", reviews_count := "0", hours := "Hours not available",
    latitude := some 0, longitude := some (mkRat 3 2),
    business_type := "Motorcycle Shop" }

def shopValid : Shop :=
  { name := "Valid", latitude := some 1, longitude := some 2 }

theorem insertionSort_eq_of_perm {l₁ l₂ : List String} (h : l₁.Perm l₂) :
    List.insertionSort pyLe l₁ = List.insertionSort pyLe l₂ :=
  List.eq_of_perm_of_sorted
    (((List.perm_insertionSort pyLe l₁).trans h).trans
      (List.perm_insertionSort pyLe l₂).symm)
    (List.sorted_insertionSort pyLe l₁)
    (List.sorted_insertionSort pyLe l₂)

theorem build_countries_dict_perm {s1 s2 : List Shop} (h : s1.Perm s2) :
    build_countries_dict s1 = build_countries_dict s2 := by
  simp only [build_countries_dict]
  have hp : (s1.filterMap shop_city_pair).Perm (s2.filterMap shop_city_pair) :=
    h.filterMap shop_city_pair
  have hkeys :
      List.insertionSort pyLe ((s1.filterMap shop_city_pair).map Prod.fst).dedup =
      List.insertionSort pyLe ((s2.filterMap shop_city_pair).map Prod.fst).dedup :=
    insertionSort_eq_of_perm ((hp.map Prod.fst).dedup)
  have hfun : ∀ country : String,
      List.insertionSort pyLe
        (((s1.filterMap shop_city_pair).filter fun p => p.1 == country).map
          Prod.snd).dedup =
      List.insertionSort pyLe
        (((s2.filterMap shop_city_pair).filter fun p => p.1 == country).map
          Prod.snd).dedup :=
    fun country =>
      insertionSort_eq_of_perm
        (((hp.filter (fun p => p.1 == country)).map Prod.snd).dedup)
  rw [hkeys]
  exact List.map_congr_left fun k _ => by rw [hfun k]

theorem build_countries_dict_keys (shops : List Shop) :
    (build_countries_dict shops).map Prod.fst =
      List.insertionSort pyLe
        ((shops.filterMap shop_city_pair).map Prod.fst).dedup := by
  simp only [build_countries_dict]
  rw [List.map_map]
  exact List.map_id _

theorem build_countries_dict_mem_ne_nil {shops : List Shop}
    {p : String × List String} (hmem : p ∈ build_countries_dict shops) :
    p.2 ≠ [] := by
  simp only [build_countries_dict] at hmem
  rcases List.mem_map.mp hmem with ⟨k, hk, rfl⟩
  have hk2 : k ∈ ((shops.filterMap shop_city_pair).map Prod.fst).dedup :=
    (List.perm_insertionSort pyLe _).mem_iff.mp hk
  have hk3 : k ∈ (shops.filterMap shop_city_pair).map Prod.fst :=
    List.mem_dedup.mp hk2
  rcases List.mem_map.mp hk3 with ⟨pr, hpr, hfst⟩
  have hfil : pr ∈ (shops.filterMap shop_city_pair).filter (fun p => p.1 == k) :=
    List.mem_filter.mpr ⟨hpr, by simp [hfst]⟩
  have hsnd : pr.2 ∈
      ((shops.filterMap shop_city_pair).filter (fun p => p.1 == k)).map Prod.snd :=
    List.mem_map_of_mem Prod.snd hfil
  have hmem2 : pr.2 ∈
      List.insertionSort pyLe
        (((shops.filterMap shop_city_pair).filter
          (fun p => p.1 == k)).map Prod.snd).dedup :=
    (List.perm_insertionSort pyLe _).mem_iff.mpr (List.mem_dedup.mpr hsnd)
  intro hnil
  dsimp only at hnil
  rw [hnil] at hmem2
  exact (List.not_mem_nil _) hmem2

theorem build_countries_dict_values {shops : List Shop}
    {p : String × List String} (hmem : p ∈ build_countries_dict shops) :
    p.2.Sorted pyLe ∧ p.2.Nodup := by
  simp only [build_countries_dict] at hmem
  rcases List.mem_map.mp hmem with ⟨k, _, rfl⟩
  refine ⟨List.sorted_insertionSort pyLe _, ?_⟩
  exact (List.perm_insertionSort pyLe _).symm.nodup (List.nodup_dedup _)

theorem parse_csv_row_ok {row : Row} {shop : Shop}
    (h : parse_csv_row row = Except.ok shop) :
    shop.name = py_strip (shop_name_value row) ∧
    shop.address = shop_address row ∧
    shop.city = shop_city row ∧
    shop.business_type = determine_business_type row ∧
    parse_coord row.latitude = Except.ok shop.latitude ∧
    parse_coord row.longitude = Except.ok shop.longitude := by
  unfold parse_csv_row at h
  cases h1 : parse_coord row.latitude with
  | error e => rw [h1] at h; cases h
  | ok lat =>
    rw [h1] at h
    cases h2 : parse_coord row.longitude with
    | error e => rw [h2] at h; cases h
    | ok lon =>
      rw [h2] at h
      injection h with h
      subst h
      exact ⟨rfl, rfl, rfl, rfl, rfl, rfl⟩

theorem parse_coord_ok_isSome {s : String} {x : Option ℚ}
    (h : parse_coord s = Except.ok x) : x.isSome = (s != "") := by
  unfold parse_coord at h
  split at h
  · cases hf : py_float s <;> rw [hf] at h
    · cases h
    · injection h with h
      subst h
      simp_all
  · injection h with h
    subst h
    simp_all

theorem parse_coord_error_of_bad {s : String} (hs : (s != "") = true)
    (hf : py_float s = none) :
    parse_coord s = Except.error ("could not convert string to float: " ++ s) := by
  unfold parse_coord
  rw [if_pos hs, hf]

theorem parse_csv_row_error_bad_lat {row : Row} (hs : (row.latitude != "") = true)
    (hf : py_float row.latitude = none) :
    (parse_csv_row row).isOk = false := by
  unfold parse_csv_row
  rw [parse_coord_error_of_bad hs hf]
  rfl

theorem parse_csv_row_error_bad_lon {row : Row} (hs : (row.longitude != "") = true)
    (hf : py_float row.longitude = none) :
    (parse_csv_row row).isOk = false := by
  unfold parse_csv_row
  cases h1 : parse_coord row.latitude
  · rfl
  · rw [parse_coord_error_of_bad hs hf]
    rfl

theorem convert_csv_to_json_count (rows : List Row) (flag : Bool) :
    (convert_csv_to_json rows flag).1.length + (convert_csv_to_json rows flag).2 =
      rows.length := by
  induction rows with
  | nil => rfl
  | cons r rs ih =>
    simp only [convert_csv_to_json]
    cases hp : parse_csv_row r with
    | error e =>
      dsimp only
      simp only [List.length_cons]
      omega
    | ok shop =>
      dsimp only
      by_cases h1 : (flag && (shop.name == "Unnamed Shop" || shop.name == "")) = true
      · rw [if_pos h1]
        simp only [List.length_cons]
        omega
      · rw [if_neg h1]
        by_cases h2 : (!py_truthy_float shop.latitude ||
            !py_truthy_float shop.longitude) = true
        · rw [if_pos h2]
          dsimp only
          simp only [List.length_cons]
          omega
        · rw [if_neg h2]
          dsimp only
          simp only [List.length_cons]
          omega

theorem convert_csv_to_json_append (xs ys : List Row) (flag : Bool) :
    convert_csv_to_json (xs ++ ys) flag =
      ((convert_csv_to_json xs flag).1 ++ (convert_csv_to_json ys flag).1,
        (convert_csv_to_json xs flag).2 + (convert_csv_to_json ys flag).2) := by
  induction xs with
  | nil => simp [convert_csv_to_json]
  | cons r rs ih =>
    simp only [List.cons_append, convert_csv_to_json, List.append_eq, ih]
    cases hp : parse_csv_row r with
    | error e =>
      dsimp only
      exact Prod.ext rfl (by omega)
    | ok shop =>
      dsimp only
      by_cases h1 : (flag && (shop.name == "Unnamed Shop" || shop.name == "")) = true
      · simp only [if_pos h1]
        exact Prod.ext rfl (by omega)
      · simp only [if_neg h1]
        by_cases h2 : (!py_truthy_float shop.latitude ||
            !py_truthy_float shop.longitude) = true
        · simp only [if_pos h2]
          exact Prod.ext rfl (by omega)
        · simp only [if_neg h2]
          exact Prod.ext (by simp) rfl

theorem convert_csv_to_json_mem_truthy {rows : List Row} {flag : Bool} {shop : Shop}
    (h : shop ∈ (convert_csv_to_json rows flag).1) :
    py_truthy_float shop.latitude = true ∧ py_truthy_float shop.longitude = true := by
  induction rows with
  | nil => cases h
  | cons r rs ih =>
    simp only [convert_csv_to_json] at h
    cases hp : parse_csv_row r <;> rw [hp] at h
    · exact ih h
    · rename_i s
      dsimp only at h
      by_cases h1 : (flag && (s.name == "Unnamed Shop" || s.name == "")) = true
      · rw [if_pos h1] at h
        exact ih h
      · rw [if_neg h1] at h
        by_cases h2 : (!py_truthy_float s.latitude ||
            !py_truthy_float s.longitude) = true
        · rw [if_pos h2] at h
          exact ih h
        · rw [if_neg h2] at h
          dsimp only at h
          rcases List.mem_cons.mp h with rfl | hmem
          · cases ha : py_truthy_float shop.latitude <;>
              cases hb : py_truthy_float shop.longitude <;> simp_all
          · exact ih hmem

theorem convert_csv_to_json_skip_head {row : Row} (rows : List Row) (flag : Bool)
    (h : (parse_csv_row row).isOk = false) :
    convert_csv_to_json (row :: rows) flag =
      ((convert_csv_to_json rows flag).1, (convert_csv_to_json rows flag).2 + 1) := by
  simp only [convert_csv_to_json]
  cases hp : parse_csv_row row with
  | error e => rfl
  | ok shop => rw [hp] at h; cases h

/-- C1 counterexample: on a row whose latitude field is present but not
parseable, parse_csv_row does raise (returns an error) instead of
producing a record with absent coordinates. -/
theorem claim_C1_counterexample :
    (parse_csv_row rowBadLat).isOk = false ∧
    (parse_csv_row rowBadLat).toOption = none := by
  decide

/-- C1 amended: if a latitude or longitude field is present but not
parseable as a real number, parse_csv_row raises (the error propagates out
of the normalizer); the orchestrator catches it and counts the row as one
skip, processing the rest. -/
theorem claim_C1_amended :
    (∀ row : Row, (row.latitude != "") = true → py_float row.latitude = none →
      (parse_csv_row row).isOk = false) ∧
    (∀ row : Row, (row.longitude != "") = true → py_float row.longitude = none →
      (parse_csv_row row).isOk = false) ∧
    (∀ (row : Row) (rows : List Row) (flag : Bool),
      (parse_csv_row row).isOk = false →
      convert_csv_to_json (row :: rows) flag =
        ((convert_csv_to_json rows flag).1, (convert_csv_to_json rows flag).2 + 1)) :=
  ⟨fun _ h1 h2 => parse_csv_row_error_bad_lat h1 h2,
   fun _ h1 h2 => parse_csv_row_error_bad_lon h1 h2,
   fun _ rows flag h => convert_csv_to_json_skip_head rows flag h⟩

/-- C1 witness: the amended claim applied to the concrete bad row. -/
theorem claim_C1_witness :
    (parse_csv_row rowBadLat).isOk = false ∧
    convert_csv_to_json (rowBadLat :: [rowGood]) true =
      ((convert_csv_to_json [rowGood] true).1,
        (convert_csv_to_json [rowGood] true).2 + 1) :=
  ⟨claim_C1_amended.1 rowBadLat (by decide) (by decide),
   claim_C1_amended.2.2 rowBadLat [rowGood] true
     (claim_C1_amended.1 rowBadLat (by decide) (by decide))⟩

/-- C2: the classifier returns true exactly on the tag mappings described
by the spec decision rule (shop motorcycle_repair/motorcycle, amenity or
craft motorcycle_repair, or the motorcycle-service tag plus a repair
indication). -/
theorem claim_C2 (tags : Tags) :
    is_motorcycle_repair_shop tags = true ↔ is_repair_shop_spec tags := by
  unfold is_motorcycle_repair_shop is_repair_shop_spec
  split_ifs with h1 h2 h3 h4 <;>
    simp_all [Bool.or_eq_true, Bool.and_eq_true, beq_iff_eq] <;> tauto

/-- C3 counterexample: the index built from a single record whose composed
city is "Unknown City, France" contains the sentinel city under France,
and France is retained although the sentinel is its only city. -/
theorem claim_C3_counterexample :
    build_countries_dict [shopUnknownCityFrance] = [("France", ["Unknown City"])] := by
  decide

/-- C3 amended: every country key of the index maps to a non-empty city
list (empty lists are never inserted), but "Unknown City" entries are kept
like any other city: a country key is present exactly when some record
contributes a (country, city) insertion pair for it, sentinel or not. -/
theorem claim_C3_amended :
    (∀ (shops : List Shop) (p : String × List String),
      p ∈ build_countries_dict shops → p.2 ≠ []) ∧
    (∀ (shops : List Shop) (k : String),
      k ∈ (build_countries_dict shops).map Prod.fst ↔
        ∃ pr ∈ shops.filterMap shop_city_pair, pr.1 = k) := by
  refine ⟨fun shops p h => build_countries_dict_mem_ne_nil h, fun shops k => ?_⟩
  rw [build_countries_dict_keys]
  rw [(List.perm_insertionSort pyLe _).mem_iff, List.mem_dedup, List.mem_map]

/-- C3 witness: the amended claim applied to the concrete
single-sentinel-record index. -/
theorem claim_C3_witness :
    (("France", ["Unknown City"]) : String × List String).2 ≠ [] ∧
    ("France" ∈ (build_countries_dict [shopUnknownCityFrance]).map Prod.fst ↔
      ∃ pr ∈ ([shopUnknownCityFrance] : List Shop).filterMap shop_city_pair,
        pr.1 = "France") :=
  ⟨claim_C3_amended.1 [shopUnknownCityFrance] ("France", ["Unknown City"]) (by decide),
   claim_C3_amended.2 [shopUnknownCityFrance] "France"⟩

/-- C4: the country index is invariant under permutation of its input,
its country keys are sorted (by the code-point order Python sorts strings
with) without duplicates, and every city list is sorted with duplicates
collapsed. -/
theorem claim_C4 :
    (∀ shops1 shops2 : List Shop, shops1.Perm shops2 →
      build_countries_dict shops1 = build_countries_dict shops2) ∧
    (∀ shops : List Shop,
      ((build_countries_dict shops).map Prod.fst).Sorted pyLe ∧
      ((build_countries_dict shops).map Prod.fst).Nodup ∧
      ∀ p ∈ build_countries_dict shops, p.2.Sorted pyLe ∧ p.2.Nodup) := by
  refine ⟨fun _ _ h => build_countries_dict_perm h, fun shops => ⟨?_, ?_, ?_⟩⟩
  · rw [build_countries_dict_keys]
    exact List.sorted_insertionSort pyLe _
  · rw [build_countries_dict_keys]
    exact (List.perm_insertionSort pyLe _).symm.nodup (List.nodup_dedup _)
  · exact fun p hp => build_countries_dict_values hp

/-- C4 witness: permutation invariance and sortedness on a concrete
two-record index. -/
theorem claim_C4_witness :
    build_countries_dict [shopMunichG, shopBerlinG] =
      build_countries_dict [shopBerlinG, shopMunichG] ∧
    ((("Germany", ["Berlin", "Munich"]) : String × List String).2.Sorted pyLe ∧
      (("Germany", ["Berlin", "Munich"]) : String × List String).2.Nodup) :=
  ⟨claim_C4.1 [shopMunichG, shopBerlinG] [shopBerlinG, shopMunichG] (by decide),
   (claim_C4.2 [shopMunichG, shopBerlinG]).2.2 ("Germany", ["Berlin", "Munich"])
     (by decide)⟩

/-- C5 counterexample: a row whose name tag is a single space normalizes
to an empty name, so the name field can be empty after normalization. -/
theorem claim_C5_counterexample :
    (parse_csv_row rowBlankName).toOption.map Shop.name = some "" := by
  decide

/-- C5 amended: the normalized name is the stripped first available of
name, operator and brand with the "Unnamed Shop" sentinel fallback (it can
be empty when the chosen tag is whitespace-only); a sentinel-named record
is excluded by the orchestrator when the unnamed filter is enabled and
included when it is disabled. -/
theorem claim_C5_amended :
    (∀ (row : Row) (shop : Shop), parse_csv_row row = Except.ok shop →
      shop.name = py_strip (spec_name row)) ∧
    (∀ (row : Row) (shop : Shop), parse_csv_row row = Except.ok shop →
      shop.name = "Unnamed Shop" →
      convert_csv_to_json [row] true = ([], 1)) ∧
    (∀ (row : Row) (shop : Shop), parse_csv_row row = Except.ok shop →
      shop.name = "Unnamed Shop" →
      py_truthy_float shop.latitude = true → py_truthy_float shop.longitude = true →
      convert_csv_to_json [row] false = ([shop], 0)) := by
  refine ⟨?_, ?_, ?_⟩
  · intro row shop h
    exact (parse_csv_row_ok h).1
  · intro row shop h hname
    simp only [convert_csv_to_json]
    rw [h]
    dsimp only
    rw [if_pos (by simp [hname])]
  · intro row shop h hname hlat hlon
    simp only [convert_csv_to_json]
    rw [h]
    dsimp only
    rw [if_neg (by simp), if_neg (by simp [hlat, hlon])]

/-- C5 witness: the amended claim applied to a concrete nameless row with
valid coordinates. -/
theorem claim_C5_witness :
    shopUnnamedGood.name = py_strip (spec_name rowUnnamedGood) ∧
    convert_csv_to_json [rowUnnamedGood] true = ([], 1) ∧
    convert_csv_to_json [rowUnnamedGood] false = ([shopUnnamedGood], 0) :=
  ⟨claim_C5_amended.1 rowUnnamedGood shopUnnamedGood (by rfl),
   claim_C5_amended.2.1 rowUnnamedGood shopUnnamedGood (by rfl) (by rfl),
   claim_C5_amended.2.2 rowUnnamedGood shopUnnamedGood (by rfl) (by rfl)
     (by rfl) (by rfl)⟩

/-- C6: the composed city of every successfully normalized record equals
the spec-side composition (explicit country tag through the code table,
else the source_country hint, else empty; then the four sentinel cases),
and an unrecognized country code passes through get_country_name
unchanged. -/
theorem claim_C6 :
    (∀ (row : Row) (shop : Shop), parse_csv_row row = Except.ok shop →
      shop.city = spec_city row) ∧
    (∀ code : String, List.lookup (py_upper code) country_map = none →
      get_country_name code = code) := by
  constructor
  · intro row shop h
    rw [(parse_csv_row_ok h).2.2.1]
    rfl
  · intro code h
    unfold get_country_name
    rw [h]
    rfl

/-- C6 witness: the C6 claim applied to a concrete row with a lowercase
country code, and to the unrecognized code ZZ. -/
theorem claim_C6_witness :
    shopBerlinDe.city = spec_city rowBerlinDe ∧ get_country_name "ZZ" = "ZZ" :=
  ⟨claim_C6.1 rowBerlinDe shopBerlinDe (by rfl), claim_C6.2 "ZZ" (by decide)⟩

/-- C7: a normalized record missing either coordinate is never in the
orchestrator's accepted set, for both settings of the unnamed filter. -/
theorem claim_C7 (rows : List Row) (flag : Bool) (shop : Shop)
    (h : shop.latitude = none ∨ shop.longitude = none) :
    shop ∉ (convert_csv_to_json rows flag).1 := by
  intro hmem
  rcases convert_csv_to_json_mem_truthy hmem with ⟨hlat, hlon⟩
  rcases h with h | h
  · rw [h] at hlat
    cases hlat
  · rw [h] at hlon
    cases hlon

/-- C7 witness: the concrete latitude-only record is excluded from the
accepted set under both filter settings. -/
theorem claim_C7_witness :
    shopLatOnly.longitude = none ∧
    shopLatOnly ∉ (convert_csv_to_json [rowLatOnly] true).1 ∧
    shopLatOnly ∉ (convert_csv_to_json [rowLatOnly] false).1 :=
  ⟨rfl, claim_C7 [rowLatOnly] true shopLatOnly (Or.inr rfl),
    claim_C7 [rowLatOnly] false shopLatOnly (Or.inr rfl)⟩

/-- C8 counterexample: a row with latitude "1.5" and no longitude
normalizes to a record with latitude present and longitude absent, so the
two coordinates are not both-present-or-both-absent. -/
theorem claim_C8_counterexample :
    (parse_csv_row rowLatOnly).toOption.map
      (fun s => (s.latitude.isSome, s.longitude.isSome)) = some (true, false) := by
  decide

/-- C8 amended: latitude and longitude are populated independently: in any
successfully normalized record each coordinate is present exactly when its
CSV field is non-empty, so one can be present while the other is absent
(such records are later dropped by the orchestrator's coordinate filter). -/
theorem claim_C8_amended (row : Row) (shop : Shop)
    (h : parse_csv_row row = Except.ok shop) :
    shop.latitude.isSome = (row.latitude != "") ∧
    shop.longitude.isSome = (row.longitude != "") :=
  ⟨parse_coord_ok_isSome (parse_csv_row_ok h).2.2.2.2.1,
   parse_coord_ok_isSome (parse_csv_row_ok h).2.2.2.2.2⟩

/-- C8 witness: the amended claim applied to the concrete latitude-only
row. -/
theorem claim_C8_witness :
    shopLatOnly.latitude.isSome = (rowLatOnly.latitude != "") ∧
    shopLatOnly.longitude.isSome = (rowLatOnly.longitude != "") :=
  claim_C8_amended rowLatOnly shopLatOnly (by rfl)

/-- C9: accepted plus skipped always equals the number of rows considered,
and a batch containing one element whose normalization fails yields
exactly the accepted records of the other N-1 rows plus one extra skip:
the run never aborts. -/
theorem claim_C9 :
    (∀ (rows : List Row) (flag : Bool),
      (convert_csv_to_json rows flag).1.length +
        (convert_csv_to_json rows flag).2 = rows.length) ∧
    (∀ (pre post : List Row) (bad : Row) (flag : Bool),
      (parse_csv_row bad).isOk = false →
      convert_csv_to_json (pre ++ bad :: post) flag =
        ((convert_csv_to_json (pre ++ post) flag).1,
          (convert_csv_to_json (pre ++ post) flag).2 + 1)) := by
  constructor
  · exact convert_csv_to_json_count
  · intro pre post bad flag h
    rw [convert_csv_to_json_append, convert_csv_to_json_skip_head post flag h,
      convert_csv_to_json_append]
    dsimp only
    exact Prod.ext rfl (by omega)

/-- C9 witness: the claim applied to a concrete batch with one malformed
element. -/
theorem claim_C9_witness :
    (convert_csv_to_json [rowGood, rowBadLat] true).1.length +
      (convert_csv_to_json [rowGood, rowBadLat] true).2 =
        ([rowGood, rowBadLat] : List Row).length ∧
    convert_csv_to_json ([rowGood] ++ rowBadLat :: []) true =
      ((convert_csv_to_json ([rowGood] ++ []) true).1,
        (convert_csv_to_json ([rowGood] ++ []) true).2 + 1) :=
  ⟨claim_C9.1 [rowGood, rowBadLat] true,
   claim_C9.2 [rowGood] [] rowBadLat true (by decide)⟩

/-- C10: a record whose latitude or longitude is exactly 0.0 is excluded
by the orchestrator's coordinate filter (the checks are truthiness tests),
and the migrator's validity check likewise rejects it, while every payload
the migrator keeps passes that check. -/
theorem claim_C10 :
    (∀ (rows : List Row) (flag : Bool) (shop : Shop),
      shop.latitude = some 0 ∨ shop.longitude = some 0 →
      shop ∉ (convert_csv_to_json rows flag).1) ∧
    (∀ shop : Shop, shop.latitude = some 0 ∨ shop.longitude = some 0 →
      migrate_shop_valid (transform_shop shop) = false) ∧
    (∀ (shops : List Shop) (t : TransformedShop), t ∈ (migrate_shops shops).1 →
      migrate_shop_valid t = true) := by
  refine ⟨?_, ?_, ?_⟩
  · intro rows flag shop h hmem
    rcases convert_csv_to_json_mem_truthy hmem with ⟨hlat, hlon⟩
    rcases h with h | h
    · rw [h] at hlat
      simp [py_truthy_float] at hlat
    · rw [h] at hlon
      simp [py_truthy_float] at hlon
  · intro shop h
    rcases h with h | h <;>
      simp [migrate_shop_valid, transform_shop, h, py_truthy_float]
  · intro shops t ht
    induction shops with
    | nil => cases ht
    | cons s rest ih =>
      simp only [migrate_shops] at ht
      by_cases hv : migrate_shop_valid (transform_shop s) = true
      · rw [if_pos hv] at ht
        rcases List.mem_cons.mp ht with rfl | hmem
        · exact hv
        · exact ih hmem
      · rw [if_neg hv] at ht
        exact ih ht

/-- C10 witness: the claim applied to a concrete record with latitude 0.0
and to a concrete valid record kept by the migrator. -/
theorem claim_C10_witness :
    shopZeroLat ∉ (convert_csv_to_json [rowZeroLat] true).1 ∧
    migrate_shop_valid (transform_shop shopZeroLat) = false ∧
    migrate_shop_valid (transform_shop shopValid) = true :=
  ⟨claim_C10.1 [rowZeroLat] true shopZeroLat (Or.inl rfl),
   claim_C10.2.1 shopZeroLat (Or.inl rfl),
   claim_C10.2.2 [shopValid] (transform_shop shopValid) (by decide)⟩
